import Mathlib

/-!
Verification development for the sheep-farm system-dynamics simulator
(`model.py`: `FarmConfig`, `FarmModel.step`, `FarmModel.run`; `app.py`:
Monte Carlo runner loop).

The per-day engine is embedded as a pure state machine over `ℚ`:
floating-point values are modelled as exact rationals, and every call the
Python code makes into numpy's global random stream is replaced by a field
of an explicit per-day oracle record (`DayOracle`).  A probability draw
`np.random.random()` is a rational in `[0,1)`, a normal draw is an
arbitrary rational, `np.random.randint(5,10)` is a natural number in
`[5,9]`, a binomial draw is a natural number, and `np.random.choice` is a
list of chosen indices.  Theorems that quantify over all oracles therefore
quantify over all random streams.

The admin-cost power law uses a real-valued exponent
(`(max(1,n)/50) ** admin_complexity_factor`), which has no exact rational
counterpart; inside the rational state machine the scale factor is a
configuration-supplied function `adminScale : ℕ → ℚ` (it only flows into
`cash`), while the faithful real-valued formula is the standalone
definition `dailyAdminCost` over `ℝ`, used for the diseconomy-of-scale
claims.
-/

namespace SheepFarm

/-- Python `int()` truncation toward zero, on an exact rational. -/
def pyInt (q : ℚ) : ℤ := if 0 ≤ q then ⌊q⌋ else -⌊-q⌋

/-- Python `int(round(n * 0.5))` for a natural `n`: `round` uses
banker's rounding, so an exact half rounds to the nearest even integer
(`model.py` line 578, `int(round(self.rams_breeding * 0.5))`). -/
def pyRoundHalf (n : ℕ) : ℕ :=
  if n % 2 = 0 then n / 2
  else if (n / 2) % 2 = 0 then n / 2 else n / 2 + 1

/-! ## Calendar

`FarmModel.__init__` precomputes `pd.date_range(start="2025-01-01",
periods=sim_years*365, freq="D")` and reads `month`, `day`, `dayofyear`
and `year` from it (`model.py` lines 175-181); this is the real Gregorian
calendar anchored at 2025-01-01, including the leap day 2028-02-29. -/

/-- Gregorian leap-year rule. -/
def isLeap (y : ℕ) : Bool := (y % 4 == 0 && y % 100 != 0) || (y % 400 == 0)

def daysInYear (y : ℕ) : ℕ := if isLeap y then 366 else 365

/-- Resolve a 0-based day offset `d` starting from year `y` to
`(year, 0-based day of year)`.  The fuel argument only forces structural
termination; each recursive call consumes at least 365 days of `d`. -/
def yearDoyAux : ℕ → ℕ → ℕ → ℕ × ℕ
  | 0, y, d => (y, d)
  | fuel + 1, y, d =>
    if d < daysInYear y then (y, d) else yearDoyAux fuel (y + 1) (d - daysInYear y)

def monthLengths (y : ℕ) : List ℕ :=
  [31, if isLeap y then 29 else 28, 31, 30, 31, 30, 31, 31, 30, 31, 30, 31]

/-- Resolve a 0-based day of year to `(month, day of month)` (both 1-based). -/
def monthDayAux : List ℕ → ℕ → ℕ → ℕ × ℕ
  | [], m, d => (m, d + 1)
  | len :: rest, m, d =>
    if d < len then (m, d + 1) else monthDayAux rest (m + 1) (d - len)

/-- One calendar entry of the precomputed date range: month and day of
month (1-based), day of year (1-based, `dates.dayofyear`), and year. -/
structure CalDate where
  month : ℕ
  day : ℕ
  doy : ℕ
  year : ℕ
deriving DecidableEq

/-- The calendar used by step `t`: day index `t` (0-based from
2025-01-01) mapped through the Gregorian calendar. -/
def calDate (t : ℕ) : CalDate :=
  let yd := yearDoyAux t 2025 t
  let md := monthDayAux (monthLengths yd.1) 1 yd.2
  ⟨md.1, md.2, yd.2 + 1, yd.1⟩

/-- The calendar the SPEC describes, modelled from its words rather than
from the code: a fixed 365-day year with no leap-year adjustment, anchored
like the code at 2025-01-01 (2025 is a common year, so `monthLengths 2025`
is the 365-day month table).  Compared against `calDate` in the calendar
claim. -/
def specCalDate (t : ℕ) : CalDate :=
  let md := monthDayAux (monthLengths 2025) 1 (t % 365)
  ⟨md.1, md.2, t % 365 + 1, 2025 + t / 365⟩

/-! ## Configuration (`FarmConfig`, `model.py` lines 10-110)

Fields that the Python code reads only as the mean or standard deviation
of a random draw (`price_meat_avg`, `meat_price_std`, `fertility_mean`,
`fertility_std`, `hay_yield_ha_mean`, `hay_yield_ha_std`,
`subsidy_ha_mean`, `subsidy_ha_std`, `machinery_repair_mean`,
`machinery_repair_std`, `shock_cost_mean`, `shock_cost_std`,
`mortality_lamb_mean`, `mortality_ewe_mean`, `price_bale_sell_winter` as
the order-price mean, `cost_feed_own_mean`) parameterise only the
distribution of the corresponding oracle field and are omitted: the
embedded computation never reads them.  `sim_years` is kept because it
fixes the run length. -/

inductive MachineryMode where
  | services
  | own
deriving DecidableEq

inductive ClimateProfile where
  | normal
  | dry
  | mountain
  | uiCustom
deriving DecidableEq

structure FarmConfig where
  simYears : ℕ
  landArea : ℚ
  meadowShare : ℚ
  barnCapacity : ℕ
  initialEwes : ℕ
  barnAreaM2 : ℚ
  hayBarnAreaM2 : ℚ
  capital : ℚ
  initialHayBales : ℚ
  priceBaleSellSummer : ℚ
  priceRamPurchase : ℚ
  marketLocalLimit : ℕ
  priceMeatWholesale : ℚ
  pastureDegradationRate : ℚ
  pastureRecoveryRate : ℚ
  delayBcsPerception : ℕ
  delayFeedDelivery : ℕ
  maxEweAge : ℚ
  machineryMode : MachineryMode
  climateProfile : ClimateProfile
  includeLaborCost : Bool
  rainGrowthGlobalMod : ℚ
  droughtProbAdd : ℚ
  winterLenGlobalMod : ℚ
  safetyMargin : ℚ
  enableForecasting : Bool
  costFeedMarketMean : ℚ
  costVetBase : ℚ
  costShearing : ℚ
  adminBaseCost : ℚ
  /-- Models `(max(1, total_animals) / 50.0) ** admin_complexity_factor`
  (`model.py` line 422).  The exponent is real-valued, so the scale factor
  has no exact rational form; inside the rational state machine it is
  supplied as a function (it only flows into `cash`).  The faithful
  real-valued formula is `dailyAdminCost` below. -/
  adminScale : ℕ → ℚ
  serviceMowHa : ℚ
  serviceBalePcs : ℚ
  ownMowFuelHa : ℚ
  ownBaleMaterial : ℚ
  ownMachineCapex : ℚ
  ownMachineLife : ℚ
  machineryFailureProbDaily : ℚ
  feedIntakeEwe : ℚ
  feedIntakeLamb : ℚ
  baleWeightKg : ℚ
  baleVolumeM3 : ℚ
  subsidySheepMean : ℚ
  taxLandHa : ℚ
  taxBuildingM2 : ℚ
  overheadBaseYear : ℚ
  barnMaintenanceM2Year : ℚ
  shockProbDaily : ℚ
  wageHourly : ℚ
  laborHoursPerEweYear : ℚ
  laborHoursPerHaYear : ℚ
  laborHoursFixYear : ℚ
  laborHoursBarnM2Year : ℚ

/-! Climate setup (`FarmModel.__init__`, `model.py` lines 141-166). -/

def baseGrass (p : ClimateProfile) : ℚ :=
  match p with
  | .dry => 7/10
  | .mountain => 6/5
  | .uiCustom => 1
  | .normal => 1

def baseDrought (p : ClimateProfile) : ℚ :=
  match p with
  | .dry => 1/50
  | .mountain => 1/1000
  | .uiCustom => 0
  | .normal => 1/200

def baseWinter (p : ClimateProfile) : ℚ :=
  match p with
  | .dry => 4/5
  | .mountain => 13/10
  | .uiCustom => 1
  | .normal => 1

def grassMod (cfg : FarmConfig) : ℚ :=
  baseGrass cfg.climateProfile * cfg.rainGrowthGlobalMod

/-- `self.drought_chance = max(0.0, min(1.0, base_drought + cfg.drought_prob_add))`
(`model.py` line 161): the drought probability is silently clamped into
`[0,1]`, not validated. -/
def droughtChance (cfg : FarmConfig) : ℚ :=
  max 0 (min 1 (baseDrought cfg.climateProfile + cfg.droughtProbAdd))

def winterLenMod (cfg : FarmConfig) : ℚ :=
  baseWinter cfg.climateProfile * cfg.winterLenGlobalMod

/-- `self.winter_start_day = int(365 - (60 * self.winter_len_mod))`
(`model.py` line 166); set once at construction and never redrawn. -/
def winterStartDay (cfg : FarmConfig) : ℤ :=
  pyInt (365 - 60 * winterLenMod cfg)

def areaMeadow (cfg : FarmConfig) : ℚ := cfg.landArea * cfg.meadowShare

def areaPasture (cfg : FarmConfig) : ℚ := cfg.landArea * (1 - cfg.meadowShare)

/-- Hay-barn capacity in bales (`_check_barn_capacity`, `model.py`
lines 196-198): `int(hay_barn_area_m2 * 3.0 / bale_volume_m3)`. -/
def barnMaxBales (cfg : FarmConfig) : ℤ :=
  pyInt (cfg.hayBarnAreaM2 * 3 / cfg.baleVolumeM3)

/-- `_get_seasonal_overhead` (`model.py` lines 208-213). -/
def seasonalOverhead (cfg : FarmConfig) (month : ℕ) : ℚ :=
  let base := cfg.overheadBaseYear / 365
  let barnMaint := (cfg.barnAreaM2 + cfg.hayBarnAreaM2) * cfg.barnMaintenanceM2Year / 365
  base * (if month = 6 ∨ month = 7 ∨ month = 8 then 3/2 else 4/5) + barnMaint

/-- `_perform_forecast` (`model.py` lines 215-218). -/
def perfForecast (cfg : FarmConfig) (totalAdults : ℕ) : ℚ :=
  (180 * cfg.feedIntakeEwe * cfg.costFeedMarketMean * (totalAdults : ℚ) + 40000)
    * (1 + cfg.safetyMargin)

/-- Monthly grass growth curve (`model.py` line 194). -/
def grassCurve (month : ℕ) : ℚ :=
  match month with
  | 3 => 1/10
  | 4 => 1/2
  | 5 => 6/5
  | 6 => 11/10
  | 7 => 4/5
  | 8 => 3/5
  | 9 => 4/5
  | 10 => 2/5
  | 11 => 1/10
  | _ => 0

/-! ## State -/

/-- A queued feed order (`model.py` line 316): delivery day index and
amount in bales. -/
structure FeedOrder where
  date : ℕ
  amount : ℚ
deriving DecidableEq

/-- The mutable state of `FarmModel`.  `self.ewes` is kept in sync with
`len(self.ewe_ages)` at every mutation in the Python code, so the count
is represented only by `eweAges.length`. -/
structure FarmState where
  eweAges : List ℚ
  ramsBreeding : ℕ
  ramAge : ℚ
  lambsMale : ℕ
  lambsFemale : ℕ
  cash : ℚ
  hayStockBales : ℚ
  bcs : ℚ
  pastureHealth : ℚ
  perceivedBcs : ℚ
  feedOrders : List FeedOrder
  pregnantEwes : ℕ
  weatherRegime : ℚ
  weatherTimer : ℤ
  isWinter : Bool
  winterEndDay : ℤ
deriving DecidableEq

/-- `FarmModel.__init__` (`model.py` lines 113-194): construction never
validates the configuration and never raises; it is a total function. -/
def initFarm (cfg : FarmConfig) : FarmState where
  eweAges := List.replicate cfg.initialEwes 3
  ramsBreeding := max 1 (cfg.initialEwes / 30)
  ramAge := 3
  lambsMale := 0
  lambsFemale := 0
  cash := cfg.capital
  hayStockBales := cfg.initialHayBales
  bcs := 3
  pastureHealth := 1
  perceivedBcs := 3
  feedOrders := []
  pregnantEwes := 0
  weatherRegime := 1
  weatherTimer := 0
  isWinter := true
  winterEndDay := pyInt (80 * winterLenMod cfg)

/-! ## Per-day randomness oracle

One record per simulated day, replacing every call into numpy's global
random stream made by `FarmModel.step`.  Normal draws are the raw sample
(any rational; `get_stochastic_value` clamps with `max 0` where the code
does), probability draws model `np.random.random()` and lie in `[0,1)`
for realizable streams, `timerDraw` models `np.random.randint(5,10)`
(values 5..9), binomial draws are bounded by their count, and index lists
model `np.random.choice(..., replace=False)`. -/
structure DayOracle where
  regimeDraw : ℚ
  timerDraw : ℕ
  meatPriceDraw : ℚ
  springFlip : ℚ
  winterFlip : ℚ
  winterEndDraw : ℚ
  droughtDraw : ℚ
  orderPriceDraw : ℚ
  growthNoise : ℚ
  availNoise : ℚ
  bornMothers : ℕ
  fertilityDraw : ℚ
  yieldDraw : ℚ
  cullSel : List ℕ
  breakdownDraw : ℚ
  repairDraw : ℚ
  subsidyDraw : ℚ
  shockDraw : ℚ
  shockCostDraw : ℚ
  eweDeaths : ℕ
  deathSel : List ℕ
  lambDeathsM : ℕ
  lambDeathsF : ℕ

/-! ## Feeding-source labels

The string labels written to `feed_source` (`model.py` lines 333, 336,
379, 392, 394, 399), as a closed enumeration. -/

inductive FeedSource where
  /-- "Hladovění (Čekání)": starvation while waiting for a delivery. -/
  | hladoveniCekani
  /-- "Seno": winter/drought hay feeding. -/
  | seno
  /-- "Pastva": pure grazing. -/
  | pastva
  /-- "Pastva + Hlad": grazing with an uncovered deficit. -/
  | pastvaHlad
  /-- "Hladovění (Bez sena)": pasture rest forced but hay ran out. -/
  | hladoveniBezSena
  /-- "Pastva + Seno": grazing supplemented from hay. -/
  | pastvaSeno
  /-- "Seno (Ochrana)": hay feeding to rest a protected pasture. -/
  | senoOchrana
  /-- "Pastva (Bez příkrmu)": deficit grazing, farmer does not supplement. -/
  | pastvaBezPrikrmu
deriving DecidableEq

/-- The four labels that report grazing on the pasture. -/
def FeedSource.isGrazingLabel : FeedSource → Bool
  | .pastva | .pastvaHlad | .pastvaSeno | .pastvaBezPrikrmu => true
  | _ => false

/-- The hay / pasture-rest labels ("Seno", "Seno (Ochrana)"). -/
def FeedSource.isHayRestLabel : FeedSource → Bool
  | .seno | .senoOchrana => true
  | _ => false

/-- Per-day feeding outcome reported by a step: the feed-source label and,
on grazing days, the grazing pressure applied to the pasture. -/
structure FeedRecord where
  source : FeedSource
  pressure : Option ℚ
deriving DecidableEq

/-! ## Step fragments -/

structure OrderResult where
  cash : ℚ
  orders : List FeedOrder
deriving DecidableEq

/-- Reorder-point ordering (`model.py` lines 302-320).  If current stock
plus pending orders is below three days of consumption, order seven days
of consumption: pay `order_amount * max(0, priceDraw)` up front and queue
delivery at `t + delay_feed_delivery`, but only when `self.cash > cost`;
otherwise nothing happens. -/
def placeOrder (cfg : FarmConfig) (t : ℕ) (priceDraw cash hay : ℚ)
    (orders : List FeedOrder) (dailyBalesNeeded : ℚ) : OrderResult :=
  let pendingBales := (orders.map FeedOrder.amount).sum
  if hay + pendingBales < dailyBalesNeeded * 3 then
    let orderAmount := dailyBalesNeeded * 7
    let cost := orderAmount * max 0 priceDraw
    if cost < cash then
      { cash := cash - cost
        orders := orders ++ [⟨t + cfg.delayFeedDelivery, orderAmount⟩] }
    else { cash := cash, orders := orders }
  else { cash := cash, orders := orders }

structure HayFeedResult where
  hay : ℚ
  bcs : ℚ
  cost : ℚ
  source : FeedSource
deriving DecidableEq

/-- Winter / drought hay feeding (`model.py` lines 322-336): feed
`min(stock, demand*1.2/bale_weight)` bales (20% handling waste); a
shortfall gives the sharp starvation update `max(1.5, bcs-0.005)`, full
feeding gives `max(2.5, bcs-0.001)`. -/
def hayFeeding (cfg : FarmConfig) (demandKg hay bcs : ℚ) : HayFeedResult :=
  let neededBales := demandKg * (6/5) / cfg.baleWeightKg
  let fed := min hay neededBales
  if fed < neededBales then
    { hay := hay - fed, bcs := max (3/2) (bcs - 1/200), cost := fed * 50,
      source := .hladoveniCekani }
  else
    { hay := hay - fed, bcs := max (5/2) (bcs - 1/1000), cost := fed * 50,
      source := .seno }

/-- Pasture health feedback (`model.py` lines 361-366): degradation when
more than 95% of the grass is eaten, recovery when less than half is. -/
def pastureHealthUpdate (cfg : FarmConfig) (health pressure : ℚ) : ℚ :=
  if 19/20 < pressure then
    max (1/10) (health - (pressure - 19/20) * cfg.pastureDegradationRate)
  else if pressure < 1/2 then min 1 (health + cfg.pastureRecoveryRate)
  else health

structure GrazeResult where
  hay : ℚ
  bcs : ℚ
  health : ℚ
  cost : ℚ
  pressure : ℚ
  source : FeedSource
deriving DecidableEq

/-- Grazing-day feeding, pasture-protection rule and pasture-health
feedback (`model.py` lines 337-399). -/
def grazingDecision (cfg : FarmConfig) (month : ℕ)
    (demandKg hay health perceived bcs regime growthNoise availNoise : ℚ) :
    GrazeResult :=
  let growth := grassCurve month * grassMod cfg * health * regime * growthNoise
  let avail := areaPasture cfg * 35 * growth * availNoise
  let forceHay := health < 1/2 ∧ hay > 5
  let pressure : ℚ := if forceHay then 0 else if 0 < avail then demandKg / avail else 10
  let health1 := pastureHealthUpdate cfg health pressure
  let wantsToSupplement := perceived < 16/5
  let effAvail := if forceHay then 0 else avail
  if demandKg ≤ effAvail then
    { hay := hay, bcs := min 4 (bcs + 1/250), health := health1,
      cost := demandKg * (1/5), pressure := pressure, source := .pastva }
  else if wantsToSupplement ∨ forceHay then
    let deficit := demandKg - effAvail
    let neededBales := deficit * (7/5) / cfg.baleWeightKg
    let fed := min hay neededBales
    let cost := effAvail * (1/5) + fed * 50
    if fed < neededBales then
      { hay := hay - fed, bcs := bcs - 3/1000, health := health1, cost := cost,
        pressure := pressure,
        source := if forceHay then .hladoveniBezSena else .pastvaHlad }
    else
      { hay := hay - fed, bcs := bcs, health := health1, cost := cost,
        pressure := pressure,
        source := if forceHay then .senoOchrana else .pastvaSeno }
  else
    { hay := hay, bcs := bcs - 1/500, health := health1, cost := 0,
      pressure := pressure, source := .pastvaBezPrikrmu }

structure ReproResult where
  pregnant : ℕ
  lambsM : ℕ
  lambsF : ℕ
  bcs : ℚ
deriving DecidableEq

/-- Reproduction pipeline (`model.py` lines 433-459): mating on October 1
(conception-rate step function of current BCS), daily gestation loss while
`bcs < 2.0`, and March lambing with a nursing BCS cost. -/
def reproPhase (month dayOfMonth : ℕ) (pregnant lambsM lambsF eweCount : ℕ)
    (bcs : ℚ) (bornMothers : ℕ) (fertilityDraw : ℚ) : ReproResult :=
  let pregnant1 :=
    if month = 10 ∧ dayOfMonth = 1 then
      if 3 < bcs then eweCount * 19 / 20
      else if 5/2 < bcs then eweCount * 7 / 10
      else eweCount * 3 / 10
    else pregnant
  let pregnant2 :=
    if 0 < pregnant1 ∧ bcs < 2 then pregnant1 - pregnant1 * 1 / 20 else pregnant1
  if month = 3 ∧ 0 < bornMothers then
    let newLambs := ⌊(bornMothers : ℚ) * max 0 fertilityDraw⌋₊
    { pregnant := pregnant2 - bornMothers
      lambsM := lambsM + newLambs / 2
      lambsF := lambsF + (newLambs - newLambs / 2)
      bcs := bcs - (bornMothers : ℚ) / ((max 1 eweCount : ℕ) : ℚ) * (2/5) }
  else { pregnant := pregnant2, lambsM := lambsM, lambsF := lambsF, bcs := bcs }

structure MowResult where
  hay : ℚ
  cost : ℚ
  incHay : ℚ
  soldHay : ℚ
deriving DecidableEq

/-- Mowing on June 10 and September 10 (`model.py` lines 467-483),
including the hay-barn overflow sale of `_check_barn_capacity`. -/
def mowing (cfg : FarmConfig) (month : ℕ) (yieldDraw hay : ℚ) : MowResult :=
  let yieldH := max 0 yieldDraw * grassMod cfg * (if month = 9 then 3/5 else 1)
  let bales := areaMeadow cfg * yieldH
  let hayAfter := hay + bales
  let cost :=
    if cfg.machineryMode = MachineryMode.services then
      areaMeadow cfg * cfg.serviceMowHa + bales * cfg.serviceBalePcs
    else areaMeadow cfg * cfg.ownMowFuelHa + bales * cfg.ownBaleMaterial
  if (barnMaxBales cfg : ℚ) < hayAfter then
    { hay := (barnMaxBales cfg : ℚ), cost := cost,
      incHay := (hayAfter - (barnMaxBales cfg : ℚ)) * cfg.priceBaleSellSummer,
      soldHay := hayAfter - (barnMaxBales cfg : ℚ) }
  else { hay := hayAfter, cost := cost, incHay := 0, soldHay := 0 }

/-- Tiered pricing for one sale sub-batch (`get_blended_price`,
`model.py` lines 502-510): up to the remaining quota sells at the retail
price, the rest at wholesale; the result is the average price for the
batch together with the decremented quota. -/
def blendedPrice (count : ℕ) (retailPrice wholesale : ℚ) (quota : ℕ) : ℚ × ℕ :=
  if count = 0 then (0, quota)
  else
    let localPart := min count quota
    (((localPart : ℚ) * retailPrice + ((count - localPart : ℕ) : ℚ) * wholesale) / (count : ℚ),
      quota - localPart)

/-- Age-threshold plus random culling (`model.py` lines 518-541): ewes
above `max_ewe_age` are culled; if that is fewer than the 15% turnover
target, `cullSel` (the `np.random.choice` draw) names additional culls,
applied only when strictly more candidates than needed remain. -/
def cullStep (cfg : FarmConfig) (ages : List ℚ) (cullSel : List ℕ) : List ℚ :=
  let targetCull := ages.length * 3 / 20
  let keep0 := ages.enum.filter fun p => ¬ cfg.maxEweAge < p.2
  let neededRandomCull := targetCull - (ages.length - keep0.length)
  let kept :=
    if neededRandomCull < keep0.length then
      keep0.filter fun p => ¬ p.1 ∈ cullSel
    else keep0
  kept.map Prod.snd

structure SaleResult where
  eweAges : List ℚ
  rams : ℕ
  ramAge : ℚ
  hay : ℚ
  incMeat : ℚ
  incHay : ℚ
  soldHay : ℚ
  soldAnimals : ℕ
  dayVet : ℚ
  dayRamPurchase : ℚ
  pMale : ℚ
  pFemale : ℚ
  sellFemales : ℕ
  cullCount : ℕ
  quotaAfter : ℕ
deriving DecidableEq

/-- The October 15 sales day (`model.py` lines 486-587): forecast-driven
hay sale, male lambs sold at a blended price, culling, promotion of up to
80% of female lambs (capped by barn capacity), remaining females sold at a
blended price sharing the same quota, culled ewes sold wholesale-only,
ram-ratio top-up and the biennial ram replacement, and the autumn vet
bill. -/
def saleBlock (cfg : FarmConfig) (year : ℕ) (baseMeatPrice cash hay : ℚ)
    (ages : List ℚ) (lambsM lambsF rams : ℕ) (ramAge vetMultiplier : ℚ)
    (cullSel : List ℕ) : SaleResult :=
  let plannerActive : Prop :=
    cfg.enableForecasting ∧ cash - perfForecast cfg (ages.length + rams) < 0 ∧ 0 < hay
  let plannerNeeded : ℚ :=
    ((pyInt (-(cash - perfForecast cfg (ages.length + rams)) / cfg.priceBaleSellSummer) + 1 : ℤ) : ℚ)
  let soldPlanner := if plannerActive then min (hay * (2/5)) plannerNeeded else 0
  let hay1 := hay - soldPlanner
  let bm := blendedPrice lambsM baseMeatPrice cfg.priceMeatWholesale cfg.marketLocalLimit
  let ages1 := cullStep cfg ages cullSel
  let cullCount := ages.length - ages1.length
  let maxNewCapacity : ℤ := (cfg.barnCapacity : ℤ) - (ages1.length : ℤ)
  let potentialKeep := lambsF * 4 / 5
  let keep := (max 0 (min (potentialKeep : ℤ) maxNewCapacity)).toNat
  let sellF := lambsF - keep
  let bf := blendedPrice sellF baseMeatPrice cfg.priceMeatWholesale bm.2
  let ages2 := ages1 ++ List.replicate keep (3/5)
  let incMeat := (lambsM : ℚ) * 40 * bm.1 + (sellF : ℚ) * 35 * bf.1
    + (cullCount : ℚ) * 60 * cfg.priceMeatWholesale
  let neededRams := max 1 (ages2.length / 30)
  let rams1 := if rams < neededRams then neededRams else rams
  let ramBuy :=
    if rams < neededRams then ((neededRams - rams : ℕ) : ℚ) * cfg.priceRamPurchase else 0
  let replaceCost :=
    if year % 2 = 0 then ((max 1 (pyRoundHalf rams1) : ℕ) : ℚ) * cfg.priceRamPurchase else 0
  let ramAge1 : ℚ := if year % 2 = 0 then 2 else ramAge
  let dayVet := ((ages2.length + rams1 : ℕ) : ℚ) * (cfg.costVetBase * vetMultiplier / 2)
  { eweAges := ages2, rams := rams1, ramAge := ramAge1, hay := hay1,
    incMeat := incMeat, incHay := soldPlanner * cfg.priceBaleSellSummer,
    soldHay := soldPlanner, soldAnimals := lambsM + sellF + cullCount,
    dayVet := dayVet, dayRamPurchase := ramBuy + replaceCost,
    pMale := bm.1, pFemale := bf.1, sellFemales := sellF,
    cullCount := cullCount, quotaAfter := bf.2 }

/-- Uniform-random mortality removal (`model.py` lines 650-654):
`np.random.choice` picks `min(deaths, len)` distinct positions
(`deathSel`), which are deleted from the age ledger. -/
def removeDeaths (ages : List ℚ) (sel : List ℕ) : List ℚ :=
  (ages.enum.filter fun p => ¬ p.1 ∈ sel).map Prod.snd

/-- Perception delay (`model.py` lines 231-236): first-order exponential
smoothing of BCS with `alpha = 1 / max(1, delay_bcs_perception)`. -/
def perceivedUpdate (cfg : FarmConfig) (perceived bcs : ℚ) : ℚ :=
  let alpha : ℚ := 1 / ((max 1 cfg.delayBcsPerception : ℕ) : ℚ)
  perceived * (1 - alpha) + bcs * alpha

/-- Weather regime redraw with clamping to `[0.5, 1.5]` (`model.py`
lines 239-244). -/
def regimeUpdate (timer : ℤ) (regime draw : ℚ) : ℚ :=
  if timer ≤ 0 then max (1/2) (min (3/2) draw) else regime

/-- Weather timer redraw and decrement (`model.py` lines 239-246). -/
def timerUpdate (timer : ℤ) (draw : ℕ) : ℤ :=
  (if timer ≤ 0 then (draw : ℤ) else timer) - 1

/-- Season control (`model.py` lines 252-262): the new winter flag after
the stochastic spring and winter flips of the day. -/
def winterAfter (cfg : FarmConfig) (isWinter : Bool) (doy : ℕ) (wEnd : ℤ)
    (springDraw winterDraw : ℚ) : Bool :=
  let isWinter1 : Bool :=
    if isWinter ∧ (doy : ℤ) > wEnd ∧ springDraw < 1/10 then false else isWinter
  if isWinter1 = false ∧ (doy : ℤ) > winterStartDay cfg ∧ winterDraw < 1/10 then true
  else isWinter1

/-- Season control (`model.py` lines 258-261): the stochastic winter-end
day is redrawn when winter begins. -/
def winterEndAfter (cfg : FarmConfig) (isWinter : Bool) (doy : ℕ) (wEnd : ℤ)
    (springDraw winterDraw winterEndDraw : ℚ) : ℤ :=
  let isWinter1 : Bool :=
    if isWinter ∧ (doy : ℤ) > wEnd ∧ springDraw < 1/10 then false else isWinter
  if isWinter1 = false ∧ (doy : ℤ) > winterStartDay cfg ∧ winterDraw < 1/10 then
    pyInt (max 0 winterEndDraw)
  else wEnd

/-- Drought evaluation (`model.py` lines 288-300): only outside winter in
June-August, with the regime-modulated probability. -/
def droughtToday (cfg : FarmConfig) (isWinter2 : Bool) (month : ℕ)
    (regime draw : ℚ) : Bool :=
  let currentDroughtProb :=
    if regime < 4/5 then droughtChance cfg * 5
    else if 6/5 < regime then droughtChance cfg * (1/10)
    else droughtChance cfg
  isWinter2 = false ∧ (month = 6 ∨ month = 7 ∨ month = 8) ∧ draw < currentDroughtProb

/-! ## One simulated day -/

/-- `FarmModel.step(t)` (`model.py` lines 220-694), as a pure function of
the configuration, the day index, the day's random draws and the current
state.  Returns the successor state together with the day's `FeedRecord`
(the `feed_source` label and, on grazing days, the grazing pressure).
The event log, the monthly age snapshots and the per-day history row are
bookkeeping that never feeds back into the state and are not modelled,
except for the feeding data returned in the `FeedRecord`. -/
def stepF (cfg : FarmConfig) (t : ℕ) (o : DayOracle) (s : FarmState) :
    FarmState × FeedRecord :=
  let cal := calDate t
  let month := cal.month
  let doy := cal.doy
  -- aging (lines 226-229)
  let eweAges0 := s.eweAges.map fun a => a + 1/365
  let ramAge0 := s.ramAge + 1/365
  -- perception delay (lines 231-236)
  let perceivedBcs := perceivedUpdate cfg s.perceivedBcs s.bcs
  -- weather regime redraw with clamping (lines 238-246)
  let weatherRegime := regimeUpdate s.weatherTimer s.weatherRegime o.regimeDraw
  let weatherTimer := timerUpdate s.weatherTimer o.timerDraw
  -- meat price with Easter premium (lines 248-250)
  let baseMeatPrice := max 0 o.meatPriceDraw * (if month = 3 ∨ month = 4 then 5/4 else 1)
  -- season control (lines 252-262)
  let isWinter2 : Bool :=
    winterAfter cfg s.isWinter doy s.winterEndDay o.springFlip o.winterFlip
  let winterEndDay2 :=
    winterEndAfter cfg s.isWinter doy s.winterEndDay o.springFlip o.winterFlip o.winterEndDraw
  -- feed-order arrivals (lines 264-270)
  let arrived := s.feedOrders.filter fun od => od.date ≤ t
  let feedOrders1 := s.feedOrders.filter fun od => t < od.date
  let hay1 := s.hayStockBales + (arrived.map FeedOrder.amount).sum
  -- demand (lines 272-275)
  let totalAdults := eweAges0.length + s.ramsBreeding
  let totalLambs := s.lambsMale + s.lambsFemale
  let demandKg := (totalAdults : ℚ) * cfg.feedIntakeEwe + (totalLambs : ℚ) * cfg.feedIntakeLamb
  -- drought (lines 288-300)
  let isDrought : Bool := droughtToday cfg isWinter2 month weatherRegime o.droughtDraw
  -- reorder-point ordering (lines 302-320)
  let dailyBalesNeeded := demandKg * (6/5) / cfg.baleWeightKg
  let ord := placeOrder cfg t o.orderPriceDraw s.cash hay1 feedOrders1 dailyBalesNeeded
  -- feeding decision (lines 322-399)
  let useHay : Bool := isWinter2 = true ∨ isDrought = true
  let hf := hayFeeding cfg demandKg hay1 s.bcs
  let gr := grazingDecision cfg month demandKg hay1 s.pastureHealth perceivedBcs s.bcs
    weatherRegime o.growthNoise o.availNoise
  let hay2 := if useHay then hf.hay else gr.hay
  let bcs1 := if useHay then hf.bcs else gr.bcs
  let pastureHealth1 := if useHay then s.pastureHealth else gr.health
  let feedCost := if useHay then hf.cost else gr.cost
  let feedRec : FeedRecord :=
    if useHay then ⟨hf.source, none⟩ else ⟨gr.source, some gr.pressure⟩
  -- vet multiplier (lines 403-405)
  let vetMultiplier : ℚ := if bcs1 < 5/2 then 2 else 1
  -- machinery depreciation and breakdowns (lines 407-417)
  let dayMachinery :=
    if cfg.machineryMode = MachineryMode.own then
      cfg.ownMachineCapex / cfg.ownMachineLife / 365 +
        (if o.breakdownDraw < cfg.machineryFailureProbDaily * cfg.landArea then
          max 0 o.repairDraw
        else 0)
    else 0
  -- admin diseconomy of scale (lines 419-423)
  let totalAnimals := totalAdults + totalLambs
  let dayAdmin := cfg.adminBaseCost * cfg.adminScale totalAnimals / 365
  -- reproduction pipeline (lines 433-459)
  let rp := reproPhase month cal.day s.pregnantEwes s.lambsMale s.lambsFemale
    eweAges0.length bcs1 o.bornMothers o.fertilityDraw
  -- shearing (lines 463-465)
  let dayShearing := if month = 5 ∧ cal.day = 15 then (totalAdults : ℚ) * cfg.costShearing else 0
  -- mowing (lines 467-483)
  let isMowDay : Prop := (month = 6 ∨ month = 9) ∧ cal.day = 10
  let mw := mowing cfg month o.yieldDraw hay2
  let hay3 := if isMowDay then mw.hay else hay2
  let dayMow := if isMowDay then mw.cost else 0
  let incHayMow := if isMowDay then mw.incHay else 0
  -- sales day (lines 486-587)
  let isSaleDay : Prop := month = 10 ∧ cal.day = 15
  let sb := saleBlock cfg cal.year baseMeatPrice ord.cash hay3 eweAges0 rp.lambsM rp.lambsF
    s.ramsBreeding ramAge0 vetMultiplier o.cullSel
  let agesAfterSale := if isSaleDay then sb.eweAges else eweAges0
  let ramsAfterSale := if isSaleDay then sb.rams else s.ramsBreeding
  let ramAgeAfterSale := if isSaleDay then sb.ramAge else ramAge0
  let lambsM1 := if isSaleDay then 0 else rp.lambsM
  let lambsF1 := if isSaleDay then 0 else rp.lambsF
  let hay4 := if isSaleDay then sb.hay else hay3
  let incMeat := if isSaleDay then sb.incMeat else 0
  let incHay := incHayMow + (if isSaleDay then sb.incHay else 0)
  let dayVet := if isSaleDay then sb.dayVet else 0
  let dayRamPurchase := if isSaleDay then sb.dayRamPurchase else 0
  -- subsidies (lines 589-593)
  let incSubsidy :=
    if month = 11 ∧ cal.day = 20 then
      (cfg.landArea * max 0 o.subsidyDraw
        + (agesAfterSale.length : ℚ) * cfg.subsidySheepMean) * (7/10)
    else if month = 4 ∧ cal.day = 20 then
      (cfg.landArea * max 0 o.subsidyDraw
        + (agesAfterSale.length : ℚ) * cfg.subsidySheepMean) * (3/10)
    else 0
  -- land and building tax (lines 595-598)
  let taxCost :=
    if month = 12 ∧ cal.day = 31 then
      cfg.landArea * cfg.taxLandHa + (cfg.barnAreaM2 + cfg.hayBarnAreaM2) * cfg.taxBuildingM2
    else 0
  -- labor (lines 600-609)
  let dailyHours :=
    ((totalAdults : ℚ) * cfg.laborHoursPerEweYear + cfg.landArea * cfg.laborHoursPerHaYear
      + cfg.laborHoursFixYear + (cfg.barnAreaM2 + cfg.hayBarnAreaM2) * cfg.laborHoursBarnM2Year)
      / 365
  let laborVal := if cfg.includeLaborCost then dailyHours * cfg.wageHourly else 0
  -- random shock (lines 611-615)
  let shockVal := if o.shockDraw < cfg.shockProbDaily then max 0 o.shockCostDraw else 0
  -- cash finalization (lines 617-623)
  let varCost := taxCost + dayVet + dayMow + dayShearing + dayRamPurchase + dayMachinery + dayAdmin
  let income := incMeat + incHay + incSubsidy
  let totalOut := feedCost + varCost + seasonalOverhead cfg month + laborVal + shockVal
  let cash2 := ord.cash + income - totalOut
  -- mortality (lines 625-659); the monthly age snapshot (lines 632-648)
  -- records output only and is skipped
  let agesAfterDeath :=
    if 0 < o.eweDeaths ∧ 0 < agesAfterSale.length then removeDeaths agesAfterSale o.deathSel
    else agesAfterSale
  let lambsM2 := if 0 < lambsM1 + lambsF1 then lambsM1 - o.lambDeathsM else lambsM1
  let lambsF2 := if 0 < lambsM1 + lambsF1 then lambsF1 - o.lambDeathsF else lambsF1
  ({ eweAges := agesAfterDeath
     ramsBreeding := ramsAfterSale
     ramAge := ramAgeAfterSale
     lambsMale := lambsM2
     lambsFemale := lambsF2
     cash := cash2
     hayStockBales := hay4
     bcs := rp.bcs
     pastureHealth := pastureHealth1
     perceivedBcs := perceivedBcs
     feedOrders := ord.orders
     pregnantEwes := rp.pregnant
     weatherRegime := weatherRegime
     weatherTimer := weatherTimer
     isWinter := isWinter2
     winterEndDay := winterEndDay2 }, feedRec)

/-- The state after `n` days of `FarmModel.run` (`model.py` lines
696-699): `runState cfg o 0` is the freshly constructed model and
`runState cfg o (n+1)` applies `step n`.  A full run performs
`sim_years * 365` steps. -/
def runState (cfg : FarmConfig) (o : ℕ → DayOracle) : ℕ → FarmState
  | 0 => initFarm cfg
  | n + 1 => (stepF cfg n (o n) (runState cfg o n)).1

/-! ## A concrete run that drives BCS below 1.5

A valid one-ewe farm with no initial hay, where every stochastic draw is a
value the corresponding distribution can produce: winter persists through
day index 300 (the 10%-per-day spring flip never fires), every feed order
is unaffordable because the order-price normal draw is huge, mowing yields
nothing, so the herd starves at the clamped winter rate `max(1.5,
bcs-0.005)` down to exactly 1.5; on day index 301 the spring flip fires,
the grazing day has no grass, the farmer supplements but has no hay, and
the unclamped `bcs -= 0.003` (line 391) pushes BCS to 1.497 < 1.5. -/
def cfgCE : FarmConfig where
  simYears := 5
  landArea := 30
  meadowShare := 1/4
  barnCapacity := 200
  initialEwes := 1
  barnAreaM2 := 400
  hayBarnAreaM2 := 200
  capital := 250000
  initialHayBales := 0
  priceBaleSellSummer := 600
  priceRamPurchase := 10000
  marketLocalLimit := 40
  priceMeatWholesale := 55
  pastureDegradationRate := 0
  pastureRecoveryRate := 1/500
  delayBcsPerception := 1
  delayFeedDelivery := 3
  maxEweAge := 8
  machineryMode := .services
  climateProfile := .uiCustom
  includeLaborCost := false
  rainGrowthGlobalMod := 1
  droughtProbAdd := 0
  winterLenGlobalMod := 0
  safetyMargin := 1/5
  enableForecasting := false
  costFeedMarketMean := 8
  costVetBase := 0
  costShearing := 0
  adminBaseCost := 0
  adminScale := fun _ => 0
  serviceMowHa := 0
  serviceBalePcs := 0
  ownMowFuelHa := 400
  ownBaleMaterial := 50
  ownMachineCapex := 1600000
  ownMachineLife := 10
  machineryFailureProbDaily := 1/10000
  feedIntakeEwe := 11/5
  feedIntakeLamb := 6/5
  baleWeightKg := 250
  baleVolumeM3 := 7/5
  subsidySheepMean := 0
  taxLandHa := 0
  taxBuildingM2 := 0
  overheadBaseYear := 0
  barnMaintenanceM2Year := 0
  shockProbDaily := 1/200
  wageHourly := 200
  laborHoursPerEweYear := 8
  laborHoursPerHaYear := 10
  laborHoursFixYear := 200
  laborHoursBarnM2Year := 1/2

/-- The random stream for the BCS-bound counterexample: every field is a
value its distribution can realize (probability draws in `[0,1)`, normal
draws arbitrary, `timerDraw ∈ [5,9]`, binomial draws `0`, empty choice
lists for zero-sized choices). -/
def oCE : ℕ → DayOracle := fun t =>
  { regimeDraw := 1
    timerDraw := 5
    meatPriceDraw := 0
    springFlip := if t = 0 then 0 else 1/2
    winterFlip := 1/2
    winterEndDraw := 80
    droughtDraw := 1/2
    orderPriceDraw := 1000000000
    growthNoise := 0
    availNoise := 0
    bornMothers := 0
    fertilityDraw := 0
    yieldDraw := -1
    cullSel := []
    breakdownDraw := 1/2
    repairDraw := 0
    subsidyDraw := 0
    shockDraw := 1/2
    shockCostDraw := 0
    eweDeaths := 0
    deathSel := []
    lambDeathsM := 0
    lambDeathsF := 0 }

/-- Closed form of the counterexample run after `k` steps (for `1 ≤ k ≤
501`): the farm grazes from day 0 on, every daily cost and income is
zero, the herd is one ewe and one ram, and BCS falls linearly by `0.003`
per day through the unclamped supplement-shortage decrement
(`model.py` line 391). -/
def ceStateAt (k : ℕ) : FarmState where
  eweAges := [3 + (k : ℚ) / 365]
  ramsBreeding := 1
  ramAge := 3 + (k : ℚ) / 365
  lambsMale := 0
  lambsFemale := 0
  cash := 250000
  hayStockBales := 0
  bcs := 3 - 3 * (k : ℚ) / 1000
  pastureHealth := 1
  perceivedBcs := 3 - 3 * ((k - 1 : ℕ) : ℚ) / 1000
  feedOrders := []
  pregnantEwes := 0
  weatherRegime := 1
  weatherTimer := 4 - (((k + 4) % 5 : ℕ) : ℤ)
  isWinter := false
  winterEndDay := 0


/-! ## Documented state bounds (spec section 8, "Bounded state") -/

/-- The spec's claimed bounds, minus the BCS lower bound `1.5 ≤ bcs`,
which the code violates (see the counterexample below). -/
def StateBounds (s : FarmState) : Prop :=
  1/10 ≤ s.pastureHealth ∧ s.pastureHealth ≤ 1 ∧
    1/2 ≤ s.weatherRegime ∧ s.weatherRegime ≤ 3/2 ∧ s.bcs ≤ 4

/-- An invalid configuration in the sense of spec section 7: negative land
area, zero barn capacity, and a drought probability of `0 + 2 = 2` after
the modifier is added.  `FarmConfig` is a plain dataclass and
`FarmModel.__init__` performs no validation, so construction succeeds and
the probability is silently clamped. -/
def cfgBad : FarmConfig :=
  { cfgCE with landArea := -1, barnCapacity := 0, droughtProbAdd := 2 }

/-- A configuration whose drought probability is `0 - 1/2 < 0` after the
modifier is added; it is silently clamped to `0`. -/
def cfgNeg : FarmConfig :=
  { cfgCE with droughtProbAdd := -(1/2) }

/-! ## Admin cost power law (`model.py` lines 419-423)

`admin_scale = (max(1, total_animals) / 50.0) ** admin_complexity_factor`
and `day_admin = (admin_base_cost * admin_scale) / 365`, over `ℝ` because
the exponent is real-valued. -/

noncomputable def dailyAdminCost (adminBaseCost factor : ℝ) (totalAnimals : ℕ) : ℝ :=
  adminBaseCost * (((max 1 totalAnimals : ℕ) : ℝ) / 50) ^ factor / 365

/-! ## Monte Carlo runner randomness discipline (`app.py` lines 1059-1093)

numpy's global stream is modelled as a deterministic family
`g : seed → position → value`; `np.random.seed` resets the position. -/

structure RngState where
  seed : ℕ
  pos : ℕ
deriving DecidableEq

/-- `np.random.seed(n)` (`app.py` lines 1063 and 1087). -/
def seedRng (n : ℕ) : RngState := ⟨n, 0⟩

/-- Draw one uniform sample from the deterministic stream `g`. -/
def drawUniform (g : ℕ → ℕ → ℚ) (r : RngState) : ℚ × RngState :=
  (g r.seed r.pos, ⟨r.seed, r.pos + 1⟩)

/-- Sensitivity perturbation (`app.py` lines 1069-1083): each selected
parameter consumes one uniform factor from the stream and is scaled by
it. -/
def perturbParams (g : ℕ → ℕ → ℚ) : RngState → List ℚ → List ℚ × RngState
  | r, [] => ([], r)
  | r, p :: ps =>
    let d := drawUniform g r
    let rest := perturbParams g d.2 ps
    (p * d.1 :: rest.1, rest.2)

structure McPrep where
  params : List ℚ
  rng : RngState
deriving DecidableEq

/-- One Monte Carlo replication prepared (`app.py` lines 1059-1093): seed
the stream with `baseSeed + i` (line 1063), optionally perturb the
scenario parameters — consuming one uniform draw per selected parameter —
then re-seed with the same `baseSeed + i` (line 1087).  `FarmConfig(**kwargs)`
and `FarmModel.__init__` consume no randomness (`initFarm` takes no
oracle), so `rng` is exactly the stream state the simulation run reads. -/
def mcPrep (g : ℕ → ℕ → ℚ) (baseSeed i : ℕ) (sensOn : Bool) (params : List ℚ) : McPrep :=
  let r0 := seedRng (baseSeed + i)
  let pr := if sensOn then perturbParams g r0 params else (params, r0)
  { params := pr.1, rng := seedRng (baseSeed + i) }

/-- The value of draw `j` of the stream as seen from state `r`. -/
def streamDraw (g : ℕ → ℕ → ℚ) (r : RngState) (j : ℕ) : ℚ := g r.seed (r.pos + j)


/-! ## Theorems

First, the counterexample run evaluated symbolically: `ceStep` advances
the closed form `ceStateAt` by one simulated day. -/

/-- On the sale days reachable inside the counterexample run the year is
odd, so the biennial ram replacement does not fire. -/
theorem ceYearOdd : ∀ k, k < 502 → (calDate k).month = 10 → (calDate k).day = 15 →
    ¬ (calDate k).year % 2 = 0 := by
  set_option maxRecDepth 100000 in decide

set_option maxHeartbeats 4000000 in
/-- One step of the counterexample run, symbolically: every seasonal event
is either outside the run or has zero effect, and the grazing day applies
the unclamped `bcs -= 0.003` decrement. -/
theorem ceStep (k : ℕ) (h1 : 1 ≤ k) (hk : k ≤ 500) :
    (stepF cfgCE k (oCE k) (ceStateAt k)).1 = ceStateAt (k + 1) := by
  have hk0 : ¬ k = 0 := by omega
  have hkq : (k : ℚ) ≤ 500 := by exact_mod_cast hk
  have hkq0 : (0 : ℚ) ≤ (k : ℚ) := Nat.cast_nonneg _
  have hage : 3 + (k : ℚ) / 365 + 1 / 365 ≤ 8 := by nlinarith
  have hperc : (3 : ℚ) - 3 * (k : ℚ) / 1000 < 16 / 5 := by nlinarith
  have hbarn : barnMaxBales cfgCE = 428 := by with_unfolding_all decide
  have hmach : ¬ (MachineryMode.services = MachineryMode.own) := by
    intro h
    exact MachineryMode.noConfusion h
  simp only [stepF, ceStateAt, oCE, hk0, if_false, FarmState.mk.injEq]
  norm_num [cfgCE, placeOrder, hayFeeding, grazingDecision, pastureHealthUpdate, reproPhase, mowing,
    perceivedUpdate, regimeUpdate, timerUpdate, winterAfter, winterEndAfter, droughtToday,
    saleBlock, blendedPrice, cullStep, removeDeaths, grassMod, droughtChance,
    areaPasture, areaMeadow, winterStartDay, barnMaxBales, seasonalOverhead,
    perfForecast, grassCurve, baseGrass, baseDrought, baseWinter, winterLenMod,
    pyInt, pyRoundHalf, hage, hperc, hbarn, decide_eq_true_eq,
    List.filter_cons, List.filter_nil, List.map_cons, List.map_nil,
    List.sum_cons, List.sum_nil, List.length_cons, List.length_nil,
    List.length_map, List.enum, List.enumFrom, List.not_mem_nil]
  refine ⟨by ring, ?_, ?_, by ring, by omega⟩
  · split
    · rename_i hsale
      rw [if_neg (ceYearOdd k (by omega) hsale.1 hsale.2)]
      ring
    · ring
  · rw [if_neg hmach, add_zero]
    split
    · rename_i hsale
      rw [if_neg (ceYearOdd k (by omega) hsale.1 hsale.2)]
    · rfl

set_option maxHeartbeats 4000000 in
/-- Day 0 of the counterexample run: the stochastic spring flip fires
(`springFlip = 0 < 0.1`), so the farm is already grazing after one step. -/
theorem ceBase : runState cfgCE oCE 1 = ceStateAt 1 := by
  have hcal : calDate 0 = ⟨1, 1, 1, 2025⟩ := by decide
  have hmach : ¬ (MachineryMode.services = MachineryMode.own) := by
    intro h
    exact MachineryMode.noConfusion h
  simp only [runState, stepF, initFarm, ceStateAt, oCE, hcal, FarmState.mk.injEq]
  norm_num [cfgCE, placeOrder, hayFeeding, grazingDecision, pastureHealthUpdate, reproPhase, mowing,
    perceivedUpdate, regimeUpdate, timerUpdate, winterAfter, winterEndAfter, droughtToday,
    saleBlock, blendedPrice, cullStep, removeDeaths, grassMod, droughtChance,
    areaPasture, areaMeadow, winterStartDay, barnMaxBales, seasonalOverhead,
    perfForecast, grassCurve, baseGrass, baseDrought, baseWinter, winterLenMod,
    pyInt, pyRoundHalf, decide_eq_true_eq, List.replicate, hmach,
    List.filter_cons, List.filter_nil, List.map_cons, List.map_nil,
    List.sum_cons, List.sum_nil, List.length_cons, List.length_nil,
    List.length_map, List.enum, List.enumFrom, List.not_mem_nil]

/-- The counterexample run follows the closed form for all of its first
501 days. -/
theorem ceRunAt : ∀ k, 1 ≤ k → k ≤ 501 → runState cfgCE oCE k = ceStateAt k
  | 1, _, _ => ceBase
  | n + 2, _, h => by
    rw [runState, ceRunAt (n + 1) (by omega) (by omega),
      ceStep (n + 1) (by omega) (by omega)]


theorem hayFeeding_bcs_le (cfg : FarmConfig) (d h b : ℚ) (hb : b ≤ 4) :
    (hayFeeding cfg d h b).bcs ≤ 4 := by
  simp only [hayFeeding]
  split <;> exact max_le (by norm_num) (by linarith)

theorem pastureHealthUpdate_mem (cfg : FarmConfig) (health p : ℚ)
    (hdeg : 0 ≤ cfg.pastureDegradationRate) (hrec : 0 ≤ cfg.pastureRecoveryRate)
    (hlo : 1/10 ≤ health) (hhi : health ≤ 1) :
    1/10 ≤ pastureHealthUpdate cfg health p ∧ pastureHealthUpdate cfg health p ≤ 1 := by
  simp only [pastureHealthUpdate]
  split
  · rename_i hp
    refine ⟨le_max_left _ _, max_le (by norm_num) ?_⟩
    nlinarith
  · split
    · exact ⟨le_min (by norm_num) (by nlinarith), min_le_left _ _⟩
    · exact ⟨hlo, hhi⟩

theorem grazingDecision_bcs_le (cfg : FarmConfig) (month : ℕ)
    (d hay health perceived b regime gN aN : ℚ) (hb : b ≤ 4) :
    (grazingDecision cfg month d hay health perceived b regime gN aN).bcs ≤ 4 := by
  simp only [grazingDecision]
  repeat' split
  all_goals simp only []
  all_goals first
    | exact min_le_left _ _
    | linarith

theorem grazingDecision_health_mem (cfg : FarmConfig) (month : ℕ)
    (d hay health perceived b regime gN aN : ℚ)
    (hdeg : 0 ≤ cfg.pastureDegradationRate) (hrec : 0 ≤ cfg.pastureRecoveryRate)
    (hlo : 1/10 ≤ health) (hhi : health ≤ 1) :
    1/10 ≤ (grazingDecision cfg month d hay health perceived b regime gN aN).health ∧
      (grazingDecision cfg month d hay health perceived b regime gN aN).health ≤ 1 := by
  simp only [grazingDecision]
  repeat' split
  all_goals exact pastureHealthUpdate_mem cfg health _ hdeg hrec hlo hhi

theorem reproPhase_bcs_le (month dayOfMonth pregnant lambsM lambsF eweCount : ℕ)
    (b : ℚ) (born : ℕ) (fert : ℚ) (hb : b ≤ 4) :
    (reproPhase month dayOfMonth pregnant lambsM lambsF eweCount b born fert).bcs ≤ 4 := by
  simp only [reproPhase]
  split
  · simp only []
    have h1 : (0 : ℚ) ≤ (born : ℚ) / ((max 1 eweCount : ℕ) : ℚ) * (2/5) := by
      have : (0 : ℚ) < ((max 1 eweCount : ℕ) : ℚ) := by
        have : 1 ≤ max 1 eweCount := le_max_left _ _
        exact_mod_cast Nat.lt_of_lt_of_le Nat.zero_lt_one this
      positivity
    linarith
  · exact hb

theorem regimeUpdate_mem (timer : ℤ) (regime draw : ℚ)
    (h1 : 1/2 ≤ regime) (h2 : regime ≤ 3/2) :
    1/2 ≤ regimeUpdate timer regime draw ∧ regimeUpdate timer regime draw ≤ 3/2 := by
  simp only [regimeUpdate]
  split
  · exact ⟨le_max_left _ _, max_le (by norm_num) (min_le_left _ _)⟩
  · exact ⟨h1, h2⟩

set_option maxHeartbeats 1000000 in
theorem stepF_bounds (cfg : FarmConfig) (t : ℕ) (o : DayOracle) (s : FarmState)
    (hdeg : 0 ≤ cfg.pastureDegradationRate) (hrec : 0 ≤ cfg.pastureRecoveryRate)
    (hs : StateBounds s) : StateBounds (stepF cfg t o s).1 := by
  obtain ⟨hh1, hh2, hr1, hr2, hb⟩ := hs
  simp only [stepF, StateBounds]
  refine ⟨?_, ?_, (regimeUpdate_mem _ _ _ hr1 hr2).1, (regimeUpdate_mem _ _ _ hr1 hr2).2, ?_⟩
  · split
    · exact hh1
    · exact (grazingDecision_health_mem cfg _ _ _ _ _ _ _ _ _ hdeg hrec hh1 hh2).1
  · split
    · exact hh2
    · exact (grazingDecision_health_mem cfg _ _ _ _ _ _ _ _ _ hdeg hrec hh1 hh2).2
  · refine reproPhase_bcs_le _ _ _ _ _ _ _ _ _ ?_
    split
    · exact hayFeeding_bcs_le cfg _ _ _ hb
    · exact grazingDecision_bcs_le cfg _ _ _ _ _ _ _ _ _ hb


/-! ## Claim C1: documented state bounds -/

/-- C1 (amended): for every configuration with nonnegative pasture
degradation and recovery rates, every random stream and every step count,
the state stays in `0.1 ≤ pastureHealth ≤ 1`, `0.5 ≤ weatherRegime ≤ 1.5`
and `BCS ≤ 4`.  The spec additionally claims `1.5 ≤ BCS`, which the code
violates (see the counterexample below). -/
theorem C1_bounded_state (cfg : FarmConfig) (o : ℕ → DayOracle)
    (hdeg : 0 ≤ cfg.pastureDegradationRate) (hrec : 0 ≤ cfg.pastureRecoveryRate) :
    ∀ n, StateBounds (runState cfg o n)
  | 0 => by
    refine ⟨?_, ?_, ?_, ?_, ?_⟩ <;> norm_num [runState, initFarm, StateBounds]
  | n + 1 =>
    stepF_bounds cfg n (o n) _ hdeg hrec (C1_bounded_state cfg o hdeg hrec n)

theorem C1_bounded_state_witness :
    (0 : ℚ) ≤ cfgCE.pastureDegradationRate ∧ (0 : ℚ) ≤ cfgCE.pastureRecoveryRate ∧
      StateBounds (runState cfgCE oCE 2) :=
  ⟨by norm_num [cfgCE], by norm_num [cfgCE],
    C1_bounded_state cfgCE oCE (by norm_num [cfgCE]) (by norm_num [cfgCE]) 2⟩

/-- C1 counterexample: a valid configuration and a realizable random
stream drive BCS to `1.497 < 1.5` on day 501, well inside the
`sim_years * 365`-day run, through the unclamped `bcs -= 0.003`
supplement-shortage decrement (`model.py` line 391). -/
theorem C1_bcs_below_bound :
    (runState cfgCE oCE 501).bcs < 3/2 ∧ 501 ≤ cfgCE.simYears * 365 := by
  constructor
  · rw [ceRunAt 501 (by norm_num) (by norm_num)]
    norm_num [ceStateAt]
  · norm_num [cfgCE]


/-! ## Claim C7: reorder-point ordering -/

/-- C7 (amended): on a day below the reorder point (`hayStock + pending <
3 * dailyBalesNeeded`), an order of exactly `7 * dailyBalesNeeded` bales is
placed when its cost is STRICTLY below cash — cash is debited immediately
and delivery is queued for `t + delay_feed_delivery` — and skipped silently
and atomically when `cash ≤ cost`.  The spec's "if cash is insufficient"
misstates the boundary: at `cash = cost` the cash covers the cost yet the
order is skipped (see the counterexample). -/
theorem C7_reorder_point (cfg : FarmConfig) (t : ℕ) (priceDraw cash hay : ℚ)
    (orders : List FeedOrder) (d : ℚ)
    (hlow : hay + (orders.map FeedOrder.amount).sum < d * 3) :
    (d * 7 * max 0 priceDraw < cash →
      placeOrder cfg t priceDraw cash hay orders d =
        ⟨cash - d * 7 * max 0 priceDraw,
          orders ++ [⟨t + cfg.delayFeedDelivery, d * 7⟩]⟩) ∧
    (cash ≤ d * 7 * max 0 priceDraw →
      placeOrder cfg t priceDraw cash hay orders d = ⟨cash, orders⟩) := by
  simp only [placeOrder, if_pos hlow]
  constructor
  · intro h
    rw [if_pos h]
  · intro h
    rw [if_neg (not_lt.mpr h)]

/-- C7 witness: a concrete affordable order is debited and queued. -/
theorem C7_reorder_point_witness :
    placeOrder cfgCE 0 100 10000 0 [] 1
      = ⟨10000 - 1 * 7 * max 0 100, [] ++ [⟨0 + cfgCE.delayFeedDelivery, 1 * 7⟩]⟩ :=
  (C7_reorder_point cfgCE 0 100 10000 0 [] 1 (by norm_num)).1 (by norm_num)

/-- C7 counterexample: with cash exactly equal to the order cost (700),
the cash is sufficient to cover the cost, yet no order is placed and cash
is unchanged — the code tests `cost < cash`, not `cost ≤ cash`. -/
theorem C7_boundary_not_placed :
    1 * 7 * max 0 (100 : ℚ) ≤ 700 ∧
      (0 : ℚ) + (List.map FeedOrder.amount []).sum < 1 * 3 ∧
      placeOrder cfgCE 0 100 700 0 [] 1 = ⟨700, []⟩ := by
  refine ⟨by norm_num, by norm_num, ?_⟩
  simp only [placeOrder]
  norm_num

/-! ## Claim C9: winter / drought hay feeding -/

/-- C9 (amended): on a winter or drought day, hay is fed up to the need
computed with the 20% handling-waste factor (`demand * 1.2 / baleWeight`
bales are consumed, capped by stock); an unmet need gives the sharp
starvation update `max(1.5, bcs - 0.005)`, a fully met need gives
`max(2.5, bcs - 0.001)`, which strictly DECREASES BCS only from above 2.5
— from below 2.5 a fully fed day raises BCS to 2.5 (see the
counterexample), so the spec's "never increases" is wrong. -/
theorem C9_feeding_update (cfg : FarmConfig) (demandKg hay bcs : ℚ) :
    (hayFeeding cfg demandKg hay bcs).hay
        = hay - min hay (demandKg * (6/5) / cfg.baleWeightKg) ∧
      (demandKg * (6/5) / cfg.baleWeightKg ≤ hay →
        (hayFeeding cfg demandKg hay bcs).bcs = max (5/2) (bcs - 1/1000)) ∧
      (hay < demandKg * (6/5) / cfg.baleWeightKg →
        (hayFeeding cfg demandKg hay bcs).bcs = max (3/2) (bcs - 1/200)) ∧
      (demandKg * (6/5) / cfg.baleWeightKg ≤ hay → 5/2 < bcs →
        (hayFeeding cfg demandKg hay bcs).bcs < bcs) := by
  simp only [hayFeeding]
  split
  · rename_i hlt
    refine ⟨rfl, ?_, fun _ => rfl, ?_⟩
    · intro hle
      rw [min_eq_right hle] at hlt
      exact absurd hlt (lt_irrefl _)
    · intro hle _
      rw [min_eq_right hle] at hlt
      exact absurd hlt (lt_irrefl _)
  · rename_i hge
    refine ⟨rfl, fun _ => rfl, ?_, ?_⟩
    · intro hlt
      exact absurd (min_lt_of_left_lt hlt) hge
    · intro _ hb
      exact max_lt (by linarith) (by linarith)

/-- C9 witness: a concrete fully fed day from BCS 3 strictly decreases BCS. -/
theorem C9_feeding_update_witness :
    (hayFeeding cfgCE 250 10 3).bcs < 3 :=
  (C9_feeding_update cfgCE 250 10 3).2.2.2 (by norm_num [cfgCE]) (by norm_num)

/-- C9 counterexample: a fully fed winter day from BCS 2 RAISES BCS to
2.5 — the `max(2.5, ...)` floor contradicts "it never increases on such a
day". -/
theorem C9_bcs_rises_when_fed :
    (2 : ℚ) < 5/2 ∧ (hayFeeding cfgCE 250 10 2).bcs = 5/2 := by
  constructor
  · norm_num
  · norm_num [hayFeeding, cfgCE]

/-! ## Claim C4: pasture protection rule -/

/-- C4 (amended): on any grazing day in a state with `pastureHealth < 0.5`
and `hayStock > 5`, the grazing pressure applied is exactly 0 (hard
threshold) and the pasture rests (health recovers by the recovery rate,
clamped at 1); when the herd's demand is positive the recorded label is
never a grazing label, and when hay covers the deficit it is the
hay-protection label `Seno (Ochrana)`.  The spec's "never a grazing
label" fails only in the zero-demand corner (see the counterexample). -/
theorem C4_pasture_protection (cfg : FarmConfig) (month : ℕ)
    (demandKg hay health perceived bcs regime gN aN : ℚ)
    (hh : health < 1/2) (hhay : 5 < hay) :
    (grazingDecision cfg month demandKg hay health perceived bcs regime gN aN).pressure = 0 ∧
      (grazingDecision cfg month demandKg hay health perceived bcs regime gN aN).health
        = min 1 (health + cfg.pastureRecoveryRate) ∧
      (0 < demandKg →
        (grazingDecision cfg month demandKg hay health perceived bcs regime gN
            aN).source.isGrazingLabel = false) ∧
      (0 < demandKg → demandKg * (7/5) / cfg.baleWeightKg ≤ hay →
        (grazingDecision cfg month demandKg hay health perceived bcs regime gN aN).source
          = FeedSource.senoOchrana) := by
  have hforce : health < 1/2 ∧ hay > 5 := ⟨hh, hhay⟩
  have hOr : perceived < 16/5 ∨ (health < 1/2 ∧ hay > 5) := Or.inr hforce
  simp only [grazingDecision, pastureHealthUpdate, if_pos hforce, if_pos hOr, sub_zero]
  refine ⟨?_, ?_, ?_, ?_⟩
  · split
    · rfl
    · split <;> rfl
  · split
    · norm_num [hh]
    · split <;> norm_num [hh]
  · intro hd
    split
    · rename_i hle
      exact absurd (lt_of_lt_of_le hd hle) (lt_irrefl _)
    · split <;> rfl
  · intro hd hle
    split
    · rename_i hle0
      exact absurd (lt_of_lt_of_le hd hle0) (lt_irrefl _)
    · split
      · rename_i hlt
        rw [min_eq_right hle] at hlt
        exact absurd hlt (lt_irrefl _)
      · rfl

/-- C4 witness: the spec's own test state (health 0.3, hay 50) on a May
grazing day with a 250 kg demand: zero pressure and the `Seno (Ochrana)`
label. -/
theorem C4_pasture_protection_witness :
    (grazingDecision cfgCE 5 250 50 (3/10) 3 3 1 1 1).pressure = 0 ∧
      (grazingDecision cfgCE 5 250 50 (3/10) 3 3 1 1 1).source = FeedSource.senoOchrana :=
  ⟨(C4_pasture_protection cfgCE 5 250 50 (3/10) 3 3 1 1 1 (by norm_num) (by norm_num)).1,
    (C4_pasture_protection cfgCE 5 250 50 (3/10) 3 3 1 1 1 (by norm_num)
      (by norm_num)).2.2.2 (by norm_num) (by norm_num [cfgCE])⟩

/-- C4 counterexample: with health 0.3 and hay 50 but an empty herd
(demand 0), the day is still logged with the grazing label "Pastva"
(`model.py` line 375 fires because `demand ≤ 0 = effective availability`),
so "never a grazing label" does not hold unconditionally. -/
theorem C4_zero_demand_label :
    (3/10 : ℚ) < 1/2 ∧ (5 : ℚ) < 50 ∧
      (grazingDecision cfgCE 5 0 50 (3/10) 3 3 1 1 1).pressure = 0 ∧
      (grazingDecision cfgCE 5 0 50 (3/10) 3 3 1 1 1).source.isGrazingLabel = true := by
  refine ⟨by norm_num, by norm_num, ?_, ?_⟩ <;>
    norm_num [grazingDecision, pastureHealthUpdate, cfgCE, grassMod, grassCurve,
      areaPasture, baseGrass, FeedSource.isGrazingLabel]

/-! ## Claim C2: configuration validation -/

/-- C2 (amended): no configuration is rejected — `FarmConfig` is a plain
dataclass with no `__post_init__` validation and `FarmModel.__init__`
raises nothing — and a drought probability outside `[0,1]` after the
`drought_prob_add` modifier is SILENTLY CLAMPED into `[0,1]`
(`model.py` line 161) rather than reported; construction succeeds for
every configuration. -/
theorem C2_accepted_and_clamped (cfg : FarmConfig) :
    0 ≤ droughtChance cfg ∧ droughtChance cfg ≤ 1 ∧
      (1 ≤ baseDrought cfg.climateProfile + cfg.droughtProbAdd → droughtChance cfg = 1) ∧
      (baseDrought cfg.climateProfile + cfg.droughtProbAdd ≤ 0 → droughtChance cfg = 0) ∧
      (initFarm cfg).cash = cfg.capital := by
  refine ⟨le_max_left _ _, max_le (by norm_num) (min_le_left _ _), ?_, ?_, rfl⟩
  · intro h
    rw [droughtChance, min_eq_left h]
    norm_num
  · intro h
    rw [droughtChance, min_eq_right (le_trans h zero_le_one), max_eq_left h]

/-- C2 witness: a below-range drought probability is clamped to 0. -/
theorem C2_accepted_and_clamped_witness :
    droughtChance cfgNeg = 0 :=
  (C2_accepted_and_clamped cfgNeg).2.2.2.1 (by norm_num [cfgNeg, cfgCE, baseDrought])

/-- C2 counterexample: the invalid configuration `cfgBad` (negative land
area, zero capacity, drought probability 2) is accepted, its probability
silently clamped to 1, and the model is constructed — no
configuration-validation error exists. -/
theorem C2_invalid_config_runs :
    cfgBad.landArea = -1 ∧ cfgBad.barnCapacity = 0 ∧
      baseDrought cfgBad.climateProfile + cfgBad.droughtProbAdd = 2 ∧
      droughtChance cfgBad = 1 ∧
      baseDrought cfgNeg.climateProfile + cfgNeg.droughtProbAdd = -(1/2) ∧
      droughtChance cfgNeg = 0 ∧
      (initFarm cfgBad).cash = cfgBad.capital := by
  refine ⟨rfl, rfl, ?_, ?_, ?_, ?_, rfl⟩ <;>
    norm_num [cfgBad, cfgNeg, cfgCE, droughtChance, baseDrought]

/-! ## Claim C3: the step calendar -/

/-- Calendar agreement, day indices 0-399. -/
theorem calAgree0 : ∀ t, t < 400 → calDate t = specCalDate t := by
  set_option maxRecDepth 400000 in decide

/-- Calendar agreement, day indices 400-799. -/
theorem calAgree400 : ∀ t, t < 400 → calDate (400 + t) = specCalDate (400 + t) := by
  set_option maxRecDepth 400000 in decide

/-- Calendar agreement, day indices 800-1153. -/
theorem calAgree800 : ∀ t, t < 354 → calDate (800 + t) = specCalDate (800 + t) := by
  set_option maxRecDepth 400000 in decide

/-- C3 (amended): the calendar used by each step is a pure function of the
day index, but through the REAL Gregorian calendar anchored at 2025-01-01
(pandas `date_range`), not a fixed 365-day year: it agrees with the
365-day calendar of the spec's words exactly up to day index 1153 and
diverges from the leap day 2028-02-29 (index 1154) on.  A default run
(`sim_years = 5`, 1825 steps) crosses that divergence. -/
theorem C3_calendar_fixed365 : ∀ t, t < 1154 → calDate t = specCalDate t := by
  intro t ht
  by_cases h1 : t < 400
  · exact calAgree0 t h1
  · by_cases h2 : t < 800
    · have e : 400 + (t - 400) = t := by omega
      have h := calAgree400 (t - 400) (by omega)
      rwa [e] at h
    · have e : 800 + (t - 800) = t := by omega
      have h := calAgree800 (t - 800) (by omega)
      rwa [e] at h

/-- C3 witness: the two calendars agree at day index 1000. -/
theorem C3_calendar_fixed365_witness : calDate 1000 = specCalDate 1000 :=
  C3_calendar_fixed365 1000 (by norm_num)

/-- C3 counterexample: day index 1154 is the leap day 2028-02-29 in the
code's calendar — a date a 365-day year does not contain — while the
spec's fixed-365 calendar calls it March 1; day-of-year later reaches
366. -/
theorem C3_leap_day_divergence :
    calDate 1154 = ⟨2, 29, 60, 2028⟩ ∧ specCalDate 1154 = ⟨3, 1, 60, 2028⟩ ∧
      calDate 1154 ≠ specCalDate 1154 ∧ (calDate 1460).doy = 366 := by
  refine ⟨by decide, by decide, by decide, ?_⟩
  set_option maxRecDepth 10000 in decide

/-! ## Claim C5: tiered market pricing -/

/-- Tiered pricing for one sub-batch, multiplied out: revenue splits as
quota-capped retail plus wholesale remainder, and the quota decrements. -/
theorem blendedPrice_mul (n q : ℕ) (R W : ℚ) (hn : 0 < n) :
    (blendedPrice n R W q).1 * n
        = ((min n q : ℕ) : ℚ) * R + ((n - min n q : ℕ) : ℚ) * W ∧
      (blendedPrice n R W q).2 = q - min n q := by
  simp only [blendedPrice, if_neg (Nat.pos_iff_ne_zero.mp hn)]
  refine ⟨div_mul_cancel₀ _ ?_, by trivial⟩
  exact_mod_cast hn.ne'

/-- C5: selling 100 animals against a quota of 40 yields `40R + 60W` per
unit weight; each sub-batch of `n` receives the blended price
`(min(n,q)·R + (n-min(n,q))·W)/n` and decrements the quota; two successive
sub-batches sharing the quota earn exactly the tiered revenue of their
total; and on the sale day the male batch uses the fresh yearly quota, the
female batch the male-decremented quota, while culled old ewes sell at the
flat wholesale rate without touching the quota. -/
theorem C5_tiered_pricing (R W : ℚ) :
    ((blendedPrice 100 R W 40).1 * 100 = 40 * R + 60 * W) ∧
      (∀ n q : ℕ, 0 < n →
        (blendedPrice n R W q).1 * n
            = ((min n q : ℕ) : ℚ) * R + ((n - min n q : ℕ) : ℚ) * W
          ∧ (blendedPrice n R W q).2 = q - min n q) ∧
      (∀ n1 n2 q : ℕ, 0 < n1 → 0 < n2 →
        (blendedPrice n1 R W q).1 * n1
            + (blendedPrice n2 R W (blendedPrice n1 R W q).2).1 * n2
          = ((min (n1 + n2) q : ℕ) : ℚ) * R
            + ((n1 + n2 - min (n1 + n2) q : ℕ) : ℚ) * W) ∧
      (∀ (cfg : FarmConfig) (year : ℕ) (p cash hay : ℚ) (ages : List ℚ)
          (lM lF rams : ℕ) (ramAge vet : ℚ) (sel : List ℕ),
        (saleBlock cfg year p cash hay ages lM lF rams ramAge vet sel).quotaAfter
            = (blendedPrice
                (saleBlock cfg year p cash hay ages lM lF rams ramAge vet sel).sellFemales
                p cfg.priceMeatWholesale
                (blendedPrice lM p cfg.priceMeatWholesale cfg.marketLocalLimit).2).2
          ∧ (saleBlock cfg year p cash hay ages lM lF rams ramAge vet sel).incMeat
            = (lM : ℚ) * 40
                  * (blendedPrice lM p cfg.priceMeatWholesale cfg.marketLocalLimit).1
                + ((saleBlock cfg year p cash hay ages lM lF rams ramAge vet
                    sel).sellFemales : ℚ) * 35
                  * (blendedPrice
                      (saleBlock cfg year p cash hay ages lM lF rams ramAge vet
                        sel).sellFemales
                      p cfg.priceMeatWholesale
                      (blendedPrice lM p cfg.priceMeatWholesale cfg.marketLocalLimit).2).1
                + ((saleBlock cfg year p cash hay ages lM lF rams ramAge vet
                    sel).cullCount : ℚ) * 60 * cfg.priceMeatWholesale) := by
  refine ⟨?_, fun n q hn => blendedPrice_mul n q R W hn, ?_, ?_⟩
  · have h := (blendedPrice_mul 100 40 R W (by norm_num)).1
    simpa using h
  · intro n1 n2 q h1 h2
    obtain ⟨e1, e2⟩ := blendedPrice_mul n1 q R W h1
    obtain ⟨e3, _⟩ := blendedPrice_mul n2 (blendedPrice n1 R W q).2 R W h2
    rw [e1, e3, e2]
    have hmin : min n1 q + min n2 (q - min n1 q) = min (n1 + n2) q := by omega
    rw [← hmin]
    have c1 : min n1 q ≤ n1 := Nat.min_le_left _ _
    have c2 : min n2 (q - min n1 q) ≤ n2 := Nat.min_le_left _ _
    have c3 : min n1 q + min n2 (q - min n1 q) ≤ n1 + n2 := by omega
    push_cast [Nat.cast_sub c1, Nat.cast_sub c2, Nat.cast_sub c3]
    ring
  · intro cfg year p cash hay ages lM lF rams ramAge vet sel
    exact ⟨rfl, rfl⟩

/-- C5 witness: the 100-against-40 identity at retail 120 and wholesale 55. -/
theorem C5_tiered_pricing_witness :
    (blendedPrice 100 120 55 40).1 * 100 = 40 * 120 + 60 * (55 : ℚ) :=
  (C5_tiered_pricing 120 55).1

/-! ## Claim C10: the breeding-ram count never decreases -/

/-- Sale-day ram handling (`model.py` lines 568-582) never lowers the ram
count: the ratio top-up only adds and the biennial replacement only
charges cost and resets age. -/
theorem saleBlock_rams_le (cfg : FarmConfig) (year : ℕ) (p cash hay : ℚ)
    (ages : List ℚ) (lM lF rams : ℕ) (ramAge vet : ℚ) (sel : List ℕ) :
    rams ≤ (saleBlock cfg year p cash hay ages lM lF rams ramAge vet sel).rams := by
  simp only [saleBlock]
  split
  · rename_i h
    exact le_of_lt h
  · exact le_refl rams

/-- One step never lowers the ram count, and leaves it untouched on
non-sale days (mortality draws apply only to ewes and lambs). -/
theorem stepF_rams (cfg : FarmConfig) (t : ℕ) (o : DayOracle) (s : FarmState) :
    s.ramsBreeding ≤ (stepF cfg t o s).1.ramsBreeding ∧
      (¬ ((calDate t).month = 10 ∧ (calDate t).day = 15) →
        (stepF cfg t o s).1.ramsBreeding = s.ramsBreeding) := by
  by_cases hs : (calDate t).month = 10 ∧ (calDate t).day = 15
  · constructor
    · simp only [stepF, if_pos hs]
      exact saleBlock_rams_le _ _ _ _ _ _ _ _ _ _ _ _
    · intro h
      exact absurd hs h
  · constructor
    · simp only [stepF, if_neg hs]
      exact le_refl _
    · intro _
      simp only [stepF, if_neg hs]

/-- C10: the ram count starts at `max(1, initialEwes / 30)`, no single day
lowers it, it is exactly unchanged outside the October 15 sale day, and
along any run it is monotone in time. -/
theorem C10_rams_never_decrease (cfg : FarmConfig) (o : ℕ → DayOracle) :
    (runState cfg o 0).ramsBreeding = max 1 (cfg.initialEwes / 30) ∧
      (∀ (t : ℕ) (o1 : DayOracle) (s : FarmState),
        s.ramsBreeding ≤ (stepF cfg t o1 s).1.ramsBreeding) ∧
      (∀ (t : ℕ) (o1 : DayOracle) (s : FarmState),
        ¬ ((calDate t).month = 10 ∧ (calDate t).day = 15) →
          (stepF cfg t o1 s).1.ramsBreeding = s.ramsBreeding) ∧
      (∀ m n : ℕ, m ≤ n →
        (runState cfg o m).ramsBreeding ≤ (runState cfg o n).ramsBreeding) := by
  refine ⟨rfl, fun t o1 s => (stepF_rams cfg t o1 s).1,
    fun t o1 s h => (stepF_rams cfg t o1 s).2 h, ?_⟩
  intro m n hmn
  exact monotone_nat_of_le_succ (fun k => (stepF_rams cfg k (o k) (runState cfg o k)).1) hmn

/-- C10 witness: the counterexample run's ram count is monotone over its
first three days. -/
theorem C10_rams_never_decrease_witness :
    (runState cfgCE oCE 0).ramsBreeding ≤ (runState cfgCE oCE 3).ramsBreeding :=
  (C10_rams_never_decrease cfgCE oCE).2.2.2 0 3 (by norm_num)

/-! ## Claim C8: Monte Carlo re-seeding -/

/-- C8: the Monte Carlo runner re-seeds the stream with `baseSeed + i`
immediately before constructing and running replication `i`
(`app.py` line 1087), so the stream state handed to the run is
`seedRng (baseSeed + i)` whatever the sensitivity mode, and every draw
the run consumes is bit-identical with perturbation on or off and across
scenarios (different parameter lists) for the same `i`. -/
theorem C8_reseed_equivalence (g : ℕ → ℕ → ℚ) (baseSeed i : ℕ) (sensOn : Bool)
    (params : List ℚ) (sensOn2 : Bool) (params2 : List ℚ) :
    (mcPrep g baseSeed i sensOn params).rng = seedRng (baseSeed + i) ∧
      ∀ j, streamDraw g (mcPrep g baseSeed i sensOn params).rng j
        = streamDraw g (mcPrep g baseSeed i sensOn2 params2).rng j :=
  ⟨rfl, fun _ => rfl⟩

/-- C8 witness: a concrete draw agrees between sensitivity on and off. -/
theorem C8_reseed_equivalence_witness :
    streamDraw (fun s p => (s : ℚ) + p) (mcPrep (fun s p => (s : ℚ) + p) 42 3 true [1, 2]).rng 5
      = streamDraw (fun s p => (s : ℚ) + p) (mcPrep (fun s p => (s : ℚ) + p) 42 3 false []).rng 5 :=
  (C8_reseed_equivalence (fun s p => (s : ℚ) + p) 42 3 true [1, 2] false []).2 5

/-! ## Claim C6: admin diseconomy of scale -/

/-- C6 (amended): `dailyAdminCost = adminBaseCost/365 *
(max(1,totalAnimals)/50)^factor` is monotone in the animal count for every
exponent `> 1`, STRICTLY increasing from one animal on, and
midpoint-convex; strict monotonicity fails at `0 → 1` animals because of
the `max(1, ·)` floor (see the counterexample). -/
theorem C6_admin_power_law (B f : ℝ) (hB : 0 < B) (hf : 1 < f) :
    (∀ n m : ℕ, n ≤ m → dailyAdminCost B f n ≤ dailyAdminCost B f m) ∧
      (∀ n m : ℕ, 1 ≤ n → n < m → dailyAdminCost B f n < dailyAdminCost B f m) ∧
      (∀ n : ℕ, 1 ≤ n →
        2 * dailyAdminCost B f (n + 1)
          ≤ dailyAdminCost B f n + dailyAdminCost B f (n + 2)) := by
  have hf0 : (0 : ℝ) < f := lt_trans zero_lt_one hf
  refine ⟨?_, ?_, ?_⟩
  · intro n m hnm
    unfold dailyAdminCost
    have hle : ((max 1 n : ℕ) : ℝ) / 50 ≤ ((max 1 m : ℕ) : ℝ) / 50 := by
      have h1 : max 1 n ≤ max 1 m := by omega
      have h2 := (Nat.cast_le (α := ℝ)).mpr h1
      linarith
    have hx : (0 : ℝ) ≤ ((max 1 n : ℕ) : ℝ) / 50 := by positivity
    have hpow := Real.rpow_le_rpow hx hle (le_of_lt hf0)
    have h3 := mul_le_mul_of_nonneg_left hpow (le_of_lt hB)
    linarith
  · intro n m hn hm
    unfold dailyAdminCost
    rw [Nat.max_eq_right hn, Nat.max_eq_right (by omega : 1 ≤ m)]
    have hlt : ((n : ℕ) : ℝ) / 50 < ((m : ℕ) : ℝ) / 50 := by
      have h1 := (Nat.cast_lt (α := ℝ)).mpr hm
      linarith
    have hx : (0 : ℝ) ≤ ((n : ℕ) : ℝ) / 50 := by positivity
    have hpow := Real.rpow_lt_rpow hx hlt hf0
    have h2 := mul_lt_mul_of_pos_left hpow hB
    linarith
  · intro n hn
    unfold dailyAdminCost
    rw [Nat.max_eq_right hn, Nat.max_eq_right (by omega : 1 ≤ n + 1),
      Nat.max_eq_right (by omega : 1 ≤ n + 2)]
    have hcx := convexOn_rpow (le_of_lt hf)
    have ha : ((n : ℕ) : ℝ) / 50 ∈ Set.Ici (0 : ℝ) := Set.mem_Ici.mpr (by positivity)
    have hb : (((n + 2 : ℕ) : ℕ) : ℝ) / 50 ∈ Set.Ici (0 : ℝ) := Set.mem_Ici.mpr (by positivity)
    have key := hcx.2 ha hb (by norm_num : (0:ℝ) ≤ 1/2) (by norm_num : (0:ℝ) ≤ 1/2)
      (by norm_num)
    simp only [smul_eq_mul] at key
    have hmid : (1/2 : ℝ) * (((n : ℕ) : ℝ) / 50) + (1/2 : ℝ) * ((((n + 2 : ℕ) : ℕ) : ℝ) / 50)
        = (((n + 1 : ℕ) : ℕ) : ℝ) / 50 := by
      push_cast
      ring
    rw [hmid] at key
    have h4 := mul_le_mul_of_nonneg_left key (le_of_lt hB)
    linarith

/-- C6 witness: a strictly larger herd pays strictly more admin cost. -/
theorem C6_admin_power_law_witness :
    dailyAdminCost 365 2 5 < dailyAdminCost 365 2 8 :=
  (C6_admin_power_law 365 2 (by norm_num) (by norm_num)).2.1 5 8 (by norm_num) (by norm_num)

/-- C6 counterexample: with exponent 2 > 1, the daily admin cost at 0
animals equals the cost at 1 animal (`max(1, ·)` flattens the origin), so
the cost is NOT strictly increasing over the whole animal count range. -/
theorem C6_flat_at_zero :
    (1 : ℝ) < 2 ∧ dailyAdminCost 365 2 0 = dailyAdminCost 365 2 1 ∧ ¬ (0 : ℕ) = 1 := by
  refine ⟨by norm_num, ?_, by norm_num⟩
  unfold dailyAdminCost
  norm_num

end SheepFarm
